import Mathlib

/-!
Verification development for the `2ip` Python client library.

Shallow embedding of the concurrent batch lookup / result-normalization
pipeline: address normalization (`twoip/twoip.py` `__normalize_ip`), the
per-address HTTP request wrapper (`__request`), batch dispatch
(`__generate_tasks` with `asyncio.gather`), response parsing
(`__parse_geo_result` / `__parse_provider_result`), the result dataclasses
(`twoip/datatypes/baseresult.py`, `providerresult.py`), table generation
(`twoip/dataclasses/_common.py` `_generate_table`) and field-list handling
(`twoip/datatypes/base.py` `__parse_fields` / `to_table`).

Python runtime values that matter to the claims (booleans vs tuples, JSON
values, dynamic types) are modelled by small inductive types.  External
collaborators (the `ipaddress` stdlib parser, the network transport) are
modelled as parameters; a concrete dotted-quad IPv4 parser is supplied so
that witnesses evaluate on real inputs.
-/

/-- A Python runtime value, as far as the `success` field is concerned:
`self.success = True,` assigns a one-element tuple, not a boolean.  The only
tuples that arise hold booleans, so tuple elements are modelled as `Bool`. -/
inductive PyVal where
  | bool (b : Bool)
  | tuple (vs : List Bool)
deriving DecidableEq, Repr

/-- A decoded JSON value as delivered by `response.json()`. -/
inductive PyJson where
  | str (s : String)
  | num (n : Int)
  | null
deriving DecidableEq, Repr

/-- A Python dynamic type tag, for the `type(x) == IPv4Address` comparisons in
`ProviderResult.__post_init__`. -/
inductive PyType where
  | str
  | int
  | ipv4Address
  | ipv6Address
  | noneType
deriving DecidableEq, Repr

/-- Truthiness of an optional string attribute (`if not self.error`): Python
`None` and the empty string are falsy. -/
def pyTruthyStr : Option String → Bool
  | none => false
  | some s => !(s == "")

/-- From `BaseResult.__post_init__` (`twoip/datatypes/baseresult.py` lines
76-82): the value assigned to `self.success`.  The source reads
`self.success = True,` in BOTH branches of
`if self.http_code == 200 and not self.error:`; the trailing comma makes the
assigned value the one-element tuple `(True,)`. -/
def baseResult_success (http_code : Option Int) (error : Option String) : PyVal :=
  if http_code = some 200 ∧ pyTruthyStr error = false then
    PyVal.tuple [true]
  else
    PyVal.tuple [true]

/-- From the same branches: the value assigned to `self.success_icon`. -/
def baseResult_success_icon (http_code : Option Int) (error : Option String) : String :=
  if http_code = some 200 ∧ pyTruthyStr error = false then "✔" else "✖"

/-- The HTTP response object attached to a raw per-address result.  `text`
and `status_code` are `Option` because the parser guards each attribute
access with try/except; `json` is the result of `response.json()` (`none`
when the body does not decode as a JSON object). -/
structure HttpResponse where
  text : Option String
  status_code : Option Int
  json : Option (List (String × PyJson))
deriving DecidableEq, Repr

/-- The payload of the dict built by `TwoIP.__request`: exactly one of
`result['error']` and `result['response']` is set. -/
inductive Outcome where
  | error (e : String)
  | response (r : HttpResponse)
deriving DecidableEq, Repr

/-- The dict returned by `TwoIP.__request`: `{'ip': ip}` plus either an
`error` string or a `response` object.  Addresses are modelled by their
canonical string form. -/
structure RawResult where
  ip : String
  outcome : Outcome
deriving DecidableEq, Repr

/-- Association lookup in a decoded JSON object, as `json.get(k, None)`. -/
def jsonGet (js : List (String × PyJson)) (k : String) : Option PyJson :=
  (js.find? (fun kv => kv.1 == k)).map Prod.snd

/-- `field_filter` of `TwoIP.__parse_geo_result` (`twoip/twoip.py` 322-324). -/
def geo_field_filter : List String :=
  ["country_code", "country", "country_rus", "country_ua",
   "region", "region_rus", "region_ua", "city", "city_rus",
   "latitude", "longitude", "zip_code", "time_zone"]

/-- `empty` sentinel list of `TwoIP.__parse_geo_result` (line 331). -/
def geo_empty : List String := ["-", "Неизвестно", "Невідомо"]

/-- Whether an extracted value is one of the sentinel strings: the filter
`lambda d: d[1] not in empty` compares the value against a list of strings,
so only string values can match. -/
def geo_sentinel (v : Option PyJson) : Bool :=
  match v with
  | some (PyJson.str s) => geo_empty.contains s
  | _ => false

/-- `extracted = {k: json.get(k, None) for k in field_filter}` followed by
`filtered = dict(filter(lambda d: d[1] not in empty, extracted.items()))`,
then the keyword argument the resulting dict supplies for field `k`
(a missing key falls back to the dataclass default `None`). -/
def kwargLookup (ks : List String) (sent : Option PyJson → Bool)
    (f : String → Option PyJson) (k : String) : Option PyJson :=
  match ((ks.map (fun k' => (k', f k'))).filter (fun kv => !sent kv.2)).find?
      (fun kv => kv.1 == k) with
  | some kv => kv.2
  | none => none

/-- The keyword argument for geo field `k` built from JSON object `js`. -/
def geo_kwarg (js : List (String × PyJson)) (k : String) : Option PyJson :=
  kwargLookup geo_field_filter geo_sentinel (jsonGet js) k

/-- The `GeoResult` dataclass (`twoip/datatypes/georesult.py` on top of
`baseresult.py`): base fields plus the thirteen geo fields, all defaulting
to `None`.  `success` is derived by `BaseResult.__post_init__`
(see `baseResult_success`), so it is not stored here. -/
structure GeoRecord where
  ip : String
  http_code : Option Int := none
  api_response_raw : Option String := none
  error : Option String := none
  country_code : Option PyJson := none
  country : Option PyJson := none
  country_rus : Option PyJson := none
  country_ua : Option PyJson := none
  region : Option PyJson := none
  region_rus : Option PyJson := none
  region_ua : Option PyJson := none
  city : Option PyJson := none
  city_rus : Option PyJson := none
  latitude : Option PyJson := none
  longitude : Option PyJson := none
  zip_code : Option PyJson := none
  time_zone : Option PyJson := none
deriving DecidableEq, Repr

/-- `TwoIP.__parse_geo_result` (`twoip/twoip.py` lines 271-348), branch for
branch.  The final `GeoResult(...)` construction cannot raise (all keyword
names are declared fields and `__post_init__` always succeeds), so the
enclosing try/except contributes nothing. -/
def parse_geo_result (r : RawResult) : GeoRecord :=
  match r.outcome with
  | Outcome.error e => { ip := r.ip, error := some e }
  | Outcome.response resp =>
    match resp.text with
    | none => { ip := r.ip, error := some "No response body in API response" }
    | some body =>
      match resp.status_code with
      | none =>
        { ip := r.ip, error := some "No HTTP response code",
          api_response_raw := some body }
      | some code =>
        if code ≠ 200 then
          if code = 429 then
            { ip := r.ip, error := some "Rate limit exceeded",
              api_response_raw := some body, http_code := some 429 }
          else
            { ip := r.ip, error := some "Unexpected HTTP response code",
              api_response_raw := some body, http_code := some code }
        else
          match resp.json with
          | none =>
            { ip := r.ip, error := some "Could not parse API response as JSON",
              api_response_raw := some body, http_code := some code }
          | some js =>
            { ip := r.ip, api_response_raw := some body, http_code := some code,
              country_code := geo_kwarg js "country_code",
              country := geo_kwarg js "country",
              country_rus := geo_kwarg js "country_rus",
              country_ua := geo_kwarg js "country_ua",
              region := geo_kwarg js "region",
              region_rus := geo_kwarg js "region_rus",
              region_ua := geo_kwarg js "region_ua",
              city := geo_kwarg js "city",
              city_rus := geo_kwarg js "city_rus",
              latitude := geo_kwarg js "latitude",
              longitude := geo_kwarg js "longitude",
              zip_code := geo_kwarg js "zip_code",
              time_zone := geo_kwarg js "time_zone" }

/-- The provider-side `ProviderResult` record as constructed by the error
branches of `TwoIP.__parse_provider_result`: base fields only (the domain
fields keep their `None` defaults on every path the code can return). -/
structure ProviderRecord where
  ip : String
  http_code : Option Int := none
  api_response_raw : Option String := none
  error : Option String := none
deriving DecidableEq, Repr

/-- `field_filter` of `TwoIP.__parse_provider_result` (lines 401-402). -/
def provider_field_filter : List String :=
  ["name_ripe", "name_rus", "site", "as", "ip_range_start",
   "ip_range_end", "route", "mask"]

/-- `empty` sentinel list of `TwoIP.__parse_provider_result` (line 409). -/
def provider_empty : List String := ["-"]

/-- `TwoIP.__parse_provider_result` (`twoip/twoip.py` lines 350-413; the copy
in `twoip/parser.py` lines 147-212 is byte-identical in behaviour).  Every
error branch returns a `ProviderResult`; the success branch (status 200,
JSON decoded) computes `extracted` and `filtered` and then the function body
ends — it never constructs the record, so the call returns Python `None`,
modelled as `none`. -/
def parse_provider_result (r : RawResult) : Option ProviderRecord :=
  match r.outcome with
  | Outcome.error e => some { ip := r.ip, error := some e }
  | Outcome.response resp =>
    match resp.text with
    | none => some { ip := r.ip, error := some "No response body in API response" }
    | some body =>
      match resp.status_code with
      | none =>
        some { ip := r.ip, error := some "No HTTP response code",
               api_response_raw := some body }
      | some code =>
        if code ≠ 200 then
          if code = 429 then
            some { ip := r.ip, error := some "Rate limit exceeded",
                   api_response_raw := some body, http_code := some 429 }
          else
            some { ip := r.ip, error := some "Unexpected HTTP response code",
                   api_response_raw := some body, http_code := some code }
        else
          match resp.json with
          | none =>
            some { ip := r.ip, error := some "Could not parse API response as JSON",
                   api_response_raw := some body, http_code := some code }
          | some js =>
            -- `extracted`/`filtered` are computed and then discarded: the
            -- function falls off its end without a return statement.
            let _filtered :=
              ((provider_field_filter.map (fun k => (k, jsonGet js k))).filter
                (fun kv => !(match kv.2 with
                             | some (PyJson.str s) => provider_empty.contains s
                             | _ => false)))
            none

/-- The geo half of `TwoIP.__parse_results` (lines 237-249): one parsed
record per raw result, in order. -/
def parse_results_geo (rs : List RawResult) : List GeoRecord :=
  rs.map parse_geo_result

/-- The provider half of `TwoIP.__parse_results` (lines 251-263): each entry
is whatever `__parse_provider_result` returned (possibly Python `None`). -/
def parse_results_provider (rs : List RawResult) : List (Option ProviderRecord) :=
  rs.map parse_provider_result

/-- `ProviderResult.__post_init__` in `twoip/datatypes/providerresult.py`
(lines 95-123).  `self.ip = f'{self.ipaddress}'` assigns an f-string, whose
Python dynamic type is always `str`; the branches then compare
`type(self.ip)` with `IPv4Address` / `IPv6Address`. -/
def providerResult_selfIp_type : PyType := PyType.str

/-- Outcome of `ProviderResult.__post_init__` as far as the `prefix`
attribute goes: `Except.ok v` means construction succeeds with
`self.prefix = v`; `Except.error m` means construction raises.  The network
constructors `IPv4Network(...)` / `IPv6Network(...)` are external
collaborators and are passed in as `mkv4` / `mkv6` (a `none` result models
the constructor raising, which the source re-raises as `ValueError`). -/
def providerResult_post_init (mkv4 mkv6 : String → String → Option String)
    (route length_py : Option String) : Except String (Option String) :=
  if pyTruthyStr route = true ∧ pyTruthyStr length_py = true then
    if providerResult_selfIp_type = PyType.ipv4Address then
      match mkv4 (route.getD "") (length_py.getD "") with
      | some net => Except.ok (some net)
      | none => Except.error "ValueError: Exception creating IPv4Network object"
    else if providerResult_selfIp_type = PyType.ipv6Address then
      match mkv6 (route.getD "") (length_py.getD "") with
      | some net => Except.ok (some net)
      | none => Except.error "ValueError: Exception creating IPv6Network object"
    else
      -- Neither branch assigned the local `prefix`, and the code then runs
      -- `self.prefix = prefix`: UnboundLocalError.
      Except.error "UnboundLocalError: local variable referenced before assignment"
  else
    Except.ok none

/-- An input element of `TwoIP.__normalize_ip`: either a value that is
already an `IPv4Address`/`IPv6Address` object (carried by its canonical
string) or a raw string still to be validated. -/
inductive IpInput where
  | typed (a : String)
  | str (s : String)
deriving DecidableEq, Repr

/-- The loop of `TwoIP.__normalize_ip` (`twoip/twoip.py` lines 192-226) over
the remaining inputs, with `ips` the accumulator list built so far.
`parse` models the stdlib `ip_address` constructor (canonical string on
success, `none` when it raises).  Typed inputs are appended with no
duplicate check (`ips.append(address); continue`); failed string parses
abort via `log.fatal` in strict mode (the repository's `Logger` installs a
`fatal` handler that exits the process) or are skipped in lenient mode;
parsed strings are dropped when already present. -/
def normalize_go (parse : String → Option String) (strict : Bool) :
    List IpInput → List String → Except String (List String)
  | [], ips => Except.ok ips
  | IpInput.typed a :: rest, ips => normalize_go parse strict rest (ips ++ [a])
  | IpInput.str s :: rest, ips =>
    match parse s with
    | none =>
      if strict then
        Except.error ("Could not validate IP address \"" ++ s ++ "\"")
      else
        normalize_go parse strict rest ips
    | some a =>
      if ips.contains a then normalize_go parse strict rest ips
      else normalize_go parse strict rest (ips ++ [a])

/-- `TwoIP.__normalize_ip`: run the loop with an empty accumulator. -/
def normalize_ip (parse : String → Option String) (strict : Bool)
    (inputs : List IpInput) : Except String (List String) :=
  normalize_go parse strict inputs []

/-- Split a character list at the dots, for the dotted-quad parser. -/
def splitDots : List Char → List (List Char)
  | [] => [[]]
  | c :: cs =>
    match splitDots cs with
    | [] => [[c]]
    | p :: ps => if c = '.' then [] :: p :: ps else (c :: p) :: ps

/-- Numeric value of a digit run. -/
def digitsVal (l : List Char) : Nat :=
  l.foldl (fun n c => n * 10 + (c.toNat - 48)) 0

/-- Whether a dotted-quad component is a valid IPv4 octet: non-empty, all
digits, no leading zero (stdlib `ip_address` rejects them), value ≤ 255. -/
def octetOk (p : List Char) : Bool :=
  match p with
  | [] => false
  | c :: cs =>
    (c :: cs).all Char.isDigit && (cs.isEmpty || c ≠ '0') && digitsVal (c :: cs) ≤ 255

/-- A concrete model of the stdlib `ip_address` constructor, restricted to
IPv4 dotted-quad strings (IPv6 inputs are outside the witnesses used here):
returns the canonical form (the input itself, since leading zeros are
rejected) or `none` when the constructor would raise `ValueError`. -/
def ip_address_v4 (s : String) : Option String :=
  let parts := splitDots s.toList
  if parts.length = 4 && parts.all octetOk then some s else none

/-- The transport-level outcome of one `client.get` call inside
`TwoIP.__request` (`twoip/twoip.py` lines 492-521): which `except` clause
would catch it, or a completed HTTP response. -/
inductive TransportResult where
  | requestError (m : String)
  | transportError (m : String)
  | otherExn (m : String)
  | response (r : HttpResponse)

/-- `TwoIP.__request`: builds `{'ip': ip}` and records either the response
or the error string of the matching `except` clause.  Total: no exception
escapes. -/
def request (transport : String → TransportResult) (ip : String) : RawResult :=
  match transport ip with
  | TransportResult.requestError m => { ip := ip, outcome := Outcome.error ("RequestError: " ++ m) }
  | TransportResult.transportError m => { ip := ip, outcome := Outcome.error ("TransportError: " ++ m) }
  | TransportResult.otherExn m => { ip := ip, outcome := Outcome.error ("Exception: " ++ m) }
  | TransportResult.response r => { ip := ip, outcome := Outcome.response r }

/-- The task list of `TwoIP.__generate_tasks` (lines 446-490): one
`__request` coroutine per normalized address, in input order. -/
def generate_tasks (transport : String → TransportResult) (ips : List String) :
    List RawResult :=
  ips.map (request transport)

/-- One completion step of the event loop: task `j` finishes and its result
is written into slot `j` of the `asyncio.gather` result array. -/
def gather_write (tasks : List RawResult) (slots : Nat → Option RawResult)
    (j : Nat) : Nat → Option RawResult :=
  fun i => if i = j then tasks.get? j else slots i

/-- Run the tasks to completion in the order given by `order` (the order in
which the scheduler completes them), filling the result slots. -/
def gather_run (tasks : List RawResult) (order : List Nat) :
    Nat → Option RawResult :=
  order.foldl (gather_write tasks) (fun _ => none)

/-- The list `asyncio.gather` hands back: slot `i` for each task index `i`.
A slot is `none` only if the scheduler never completed that task. -/
def gather (tasks : List RawResult) (order : List Nat) : List (Option RawResult) :=
  (List.range tasks.length).map (gather_run tasks order)

/-- The whole batch dispatch: generate one task per address and gather the
results, with `order` the completion order chosen by the event loop. -/
def run_batch (transport : String → TransportResult) (ips : List String)
    (order : List Nat) : List (Option RawResult) :=
  gather (generate_tasks transport ips) order

/-- `TwoIP.__lookup` for the geo endpoint (lines 130-174), with the network
stack abstracted into `transport`: normalize, dispatch, parse.  A
normalization abort (strict mode) propagates before any task is created,
so the result cannot depend on `transport` in that case. -/
def lookup_geo (parse : String → Option String) (strict : Bool)
    (transport : String → TransportResult) (inputs : List IpInput) :
    Except String (List GeoRecord) :=
  match normalize_ip parse strict inputs with
  | Except.error e => Except.error e
  | Except.ok ips => Except.ok (parse_results_geo (generate_tasks transport ips))

/-- Python `list.index(x)`: position of the first occurrence (the sources
only call it when the element is present). -/
def pyIndex (l : List String) (x : String) : Nat :=
  match l with
  | [] => 0
  | y :: ys => if y = x then 0 else pyIndex ys x + 1

/-- Lexicographic code-point comparison of character lists: Python's `<` on
strings. -/
def charsLt : List Char → List Char → Bool
  | [], [] => false
  | [], _ :: _ => true
  | _ :: _, [] => false
  | a :: as, b :: bs =>
    if a.toNat < b.toNat then true
    else if b.toNat < a.toNat then false
    else charsLt as bs

/-- Comparison used by Python `sorted` on the string keys of table rows. -/
def pyStrLt (a b : String) : Bool := charsLt a.toList b.toList

/-- Stable insertion of a row into an already sorted run, placing the new
row after existing rows with an equal key (Python `sorted` is stable). -/
def sortedInsert (key : List String → String) (x : List String) :
    List (List String) → List (List String)
  | [] => [x]
  | y :: ys =>
    if pyStrLt (key x) (key y) then x :: y :: ys else y :: sortedInsert key x ys

/-- `sorted(data, key=...)`: stable sort of the rows by the key. -/
def pySorted (key : List String → String) (data : List (List String)) :
    List (List String) :=
  data.foldl (fun acc x => sortedInsert key x acc) []

/-- The sort key of a row for column `idx`: `lambda x: x[index]`.  Rows are
built with one cell per header, so the default is never consulted on the
data the callers construct. -/
def rowKey (idx : Nat) (row : List String) : String := row.getD idx ""

/-- `BaseResults._generate_table` (`twoip/dataclasses/_common.py` lines
38-74), with the final `tabulate` rendering (an external library) elided:
the result is the sorted row data handed to `tabulate`, or the exception
raised.  An `int` sort key is incremented (`sort += 1`), bounds-checked
with `sort < 0 or sort > len(headers)` and then used to index
`self._table_headers` (an index equal to the length slips through the
check and raises `IndexError`); the data is sorted by
`self._table_headers.index(sort_by)`, the first position of the chosen
header name. -/
def generate_table (headers : List String) (data : List (List String))
    (sort : String ⊕ Int) : Except String (List (List String)) :=
  match sort with
  | Sum.inl s =>
    if headers.contains s then
      Except.ok (pySorted (rowKey (pyIndex headers s)) data)
    else
      -- a string that is not a header falls into the `else`, fails the
      -- `isinstance(sort, int)` test and raises ValueError
      Except.error ("ValueError: The sort index " ++ s ++
        " is not a valid sort key for the table")
  | Sum.inr i =>
    let s := i + 1
    if s < 0 ∨ s > (headers.length : Int) then
      Except.error "ValueError: Sort column index not in table headers"
    else
      match headers.get? s.toNat with
      | some h => Except.ok (pySorted (rowKey (pyIndex headers h)) data)
      | none => Except.error "IndexError: list index out of range"

/-- The in-place effect of `Base.__parse_fields` (`twoip/datatypes/base.py`
lines 148-160) on a non-empty caller-supplied field list:
`fields.insert(0, fields.pop(fields.index('ip')))` when `'ip' in fields`,
otherwise `fields.insert(0, 'ip')`.  Both `pop` and `insert` mutate the
list object the caller passed in; this function returns that object's
final contents. -/
def parse_fields_state (fields : List String) : List String :=
  if fields.contains "ip" then
    let i := pyIndex fields "ip"
    (fields.getD i "") :: (fields.take i ++ fields.drop (i + 1))
  else
    "ip" :: fields

/-- The caller's list after `Base.to_table(fields)` or `Base.to_csv(fields)`
returns, when an explicit list was passed.  An empty list is falsy, so the
code rebinds `fields` to the default list and never touches the caller's
object. -/
def to_table_caller_fields_after (fields : List String) : List String :=
  if fields.isEmpty then fields else parse_fields_state fields

/-- Deduplication keeping first-occurrence order, with an accumulator of the
entries already kept: the shape `__normalize_ip`'s loop gives its `ips`
list on string inputs. -/
def dedupGo (acc : List String) : List String → List String
  | [] => acc
  | x :: xs => if acc.contains x then dedupGo acc xs else dedupGo (acc ++ [x]) xs

/-- Deduplication of a list keeping the first occurrence of each element. -/
def pyDedup (l : List String) : List String := dedupGo [] l

/-- A raw result whose HTTP response completed with status 200 and a decoded
JSON object: the success path of the parsers. -/
def geo_ok_outcome (ip body : String) (js : List (String × PyJson)) : RawResult :=
  { ip := ip,
    outcome := Outcome.response
      { text := some body, status_code := some 200, json := some js } }

theorem find?_filtered_not_mem (ks : List String) (sent : Option PyJson → Bool)
    (f : String → Option PyJson) (k : String) (hk : k ∉ ks) :
    ((ks.map (fun k' => (k', f k'))).filter (fun kv => !sent kv.2)).find?
      (fun kv => kv.1 == k) = none := by
  induction ks with
  | nil => rfl
  | cons a as ih =>
    have hka : a ≠ k := fun h => hk (h ▸ List.mem_cons_self a as)
    have hk' : k ∉ as := fun h => hk (List.mem_cons_of_mem a h)
    by_cases hs : sent (f a) = true
    · simp only [List.map_cons, List.filter_cons, hs, Bool.not_true,
        Bool.false_eq_true, if_false]
      exact ih hk'
    · simp only [List.map_cons, List.filter_cons, Bool.not_eq_true', hs,
        Bool.not_false, if_true, List.find?_cons]
      have : ((a, f a).1 == k) = false := by
        simp [hka]
      simp only [this]
      exact ih hk'

theorem find?_filtered_mem (ks : List String) (sent : Option PyJson → Bool)
    (f : String → Option PyJson) (k : String) (hnd : ks.Nodup) (hk : k ∈ ks) :
    ((ks.map (fun k' => (k', f k'))).filter (fun kv => !sent kv.2)).find?
      (fun kv => kv.1 == k) =
      (if sent (f k) = true then none else some (k, f k)) := by
  induction ks with
  | nil => cases hk
  | cons a as ih =>
    rcases List.mem_cons.mp hk with h | h
    · subst h
      have hnotin : k ∉ as := (List.nodup_cons.mp hnd).1
      by_cases hs : sent (f k) = true
      · simp only [List.map_cons, List.filter_cons, hs, Bool.not_true,
          Bool.false_eq_true, if_false, if_true]
        exact find?_filtered_not_mem as sent f k hnotin
      · simp only [List.map_cons, List.filter_cons, Bool.not_eq_true', hs,
          Bool.not_false, if_true, List.find?_cons, if_false]
        simp
    · have hka : a ≠ k := by
        rintro rfl
        exact (List.nodup_cons.mp hnd).1 h
      have hrec := ih (List.nodup_cons.mp hnd).2 h
      by_cases hs : sent (f a) = true
      · simp only [List.map_cons, List.filter_cons, hs, Bool.not_true,
          Bool.false_eq_true, if_false]
        exact hrec
      · simp only [List.map_cons, List.filter_cons, Bool.not_eq_true', hs,
          Bool.not_false, if_true, List.find?_cons]
        have : ((a, f a).1 == k) = false := by simp [hka]
        simp only [this]
        exact hrec

theorem kwargLookup_eq (ks : List String) (sent : Option PyJson → Bool)
    (f : String → Option PyJson) (k : String) (hnd : ks.Nodup) (hk : k ∈ ks) :
    kwargLookup ks sent f k = (if sent (f k) = true then none else f k) := by
  unfold kwargLookup
  rw [find?_filtered_mem ks sent f k hnd hk]
  by_cases hs : sent (f k) = true <;> simp [hs]

theorem kwargLookup_congr (ks : List String) (sent : Option PyJson → Bool)
    (f g : String → Option PyJson) (k : String) (hfg : ∀ k' ∈ ks, f k' = g k') :
    kwargLookup ks sent f k = kwargLookup ks sent g k := by
  unfold kwargLookup
  have : ks.map (fun k' => (k', f k')) = ks.map (fun k' => (k', g k')) :=
    List.map_congr_left (fun a ha => by rw [hfg a ha])
  rw [this]

theorem geo_kwarg_eq (js : List (String × PyJson)) (k : String)
    (hk : k ∈ geo_field_filter) :
    geo_kwarg js k = (if geo_sentinel (jsonGet js k) = true then none else jsonGet js k) :=
  kwargLookup_eq geo_field_filter geo_sentinel (jsonGet js) k (by decide) hk

theorem normalize_go_str_eq (parse : String → Option String) (l : List String) :
    ∀ ips, normalize_go parse false (l.map IpInput.str) ips =
      Except.ok (dedupGo ips (l.filterMap parse)) := by
  induction l with
  | nil => intro ips; rfl
  | cons s rest ih =>
    intro ips
    cases hp : parse s with
    | none =>
      simp only [List.map_cons, normalize_go, hp, List.filterMap_cons,
        Bool.false_eq_true, if_false]
      exact ih ips
    | some a =>
      by_cases hc : ips.contains a = true
      · simp only [List.map_cons, normalize_go, hp, List.filterMap_cons, hc,
          if_true, dedupGo]
        exact ih ips
      · simp only [List.map_cons, normalize_go, hp, List.filterMap_cons,
          Bool.not_eq_true] at *
        simp only [hc, Bool.false_eq_true, if_false, dedupGo]
        exact ih (ips ++ [a])

theorem normalize_go_typed_eq (parse : String → Option String) (strict : Bool)
    (ts : List String) :
    ∀ ips, normalize_go parse strict (ts.map IpInput.typed) ips =
      Except.ok (ips ++ ts) := by
  induction ts with
  | nil => intro ips; simp [normalize_go]
  | cons a rest ih =>
    intro ips
    simp only [List.map_cons, normalize_go]
    rw [ih (ips ++ [a])]
    simp

theorem normalize_go_strict_err (parse : String → Option String) :
    ∀ (inputs : List IpInput) (ips : List String),
      (∃ s, IpInput.str s ∈ inputs ∧ parse s = none) →
      ∃ s0, parse s0 = none ∧ IpInput.str s0 ∈ inputs ∧
        normalize_go parse true inputs ips =
          Except.error ("Could not validate IP address \"" ++ s0 ++ "\"") := by
  intro inputs
  induction inputs with
  | nil =>
    rintro ips ⟨s, hs, -⟩
    cases hs
  | cons inp rest ih =>
    rintro ips ⟨s, hs, hp⟩
    cases inp with
    | typed a =>
      have hmem : IpInput.str s ∈ rest := by
        rcases List.mem_cons.mp hs with h | h
        · cases h
        · exact h
      obtain ⟨s0, h1, h2, h3⟩ := ih (ips ++ [a]) ⟨s, hmem, hp⟩
      exact ⟨s0, h1, List.mem_cons_of_mem _ h2, by simpa [normalize_go] using h3⟩
    | str t =>
      cases hpt : parse t with
      | none =>
        refine ⟨t, hpt, List.mem_cons_self _ _, ?_⟩
        simp [normalize_go, hpt]
      | some a =>
        have hmem : IpInput.str s ∈ rest := by
          rcases List.mem_cons.mp hs with h | h
          · cases h
            rw [hpt] at hp
            cases hp
          · exact h
        by_cases hc : a ∈ ips
        · obtain ⟨s0, h1, h2, h3⟩ := ih ips ⟨s, hmem, hp⟩
          exact ⟨s0, h1, List.mem_cons_of_mem _ h2, by simpa [normalize_go, hpt, hc] using h3⟩
        · obtain ⟨s0, h1, h2, h3⟩ := ih (ips ++ [a]) ⟨s, hmem, hp⟩
          exact ⟨s0, h1, List.mem_cons_of_mem _ h2, by simpa [normalize_go, hpt, hc] using h3⟩

theorem normalize_go_lenient_skip (parse : String → Option String) (s : String)
    (hp : parse s = none) (pre post : List IpInput) :
    ∀ ips, normalize_go parse false (pre ++ IpInput.str s :: post) ips =
      normalize_go parse false (pre ++ post) ips := by
  induction pre with
  | nil =>
    intro ips
    simp [normalize_go, hp]
  | cons inp rest ih =>
    intro ips
    cases inp with
    | typed a =>
      simp only [List.cons_append, normalize_go]
      exact ih (ips ++ [a])
    | str t =>
      cases hpt : parse t with
      | none =>
        simp only [List.cons_append, normalize_go, hpt, Bool.false_eq_true, if_false]
        exact ih ips
      | some a =>
        by_cases hc : ips.contains a = true
        · simp only [List.cons_append, normalize_go, hpt, hc, if_true]
          exact ih ips
        · simp only [List.cons_append, normalize_go, hpt, hc, Bool.false_eq_true,
            if_false]
          exact ih (ips ++ [a])

theorem dedupGo_nodup (l : List String) :
    ∀ acc, acc.Nodup → (dedupGo acc l).Nodup := by
  induction l with
  | nil => intro acc h; exact h
  | cons x xs ih =>
    intro acc h
    by_cases hc : acc.contains x = true
    · simp only [dedupGo, hc, if_true]
      exact ih acc h
    · simp only [dedupGo, hc, Bool.false_eq_true, if_false]
      refine ih (acc ++ [x]) ?_
      have hx : x ∉ acc := fun hmem => hc (List.elem_eq_true_of_mem hmem)
      simp [List.nodup_append, h, hx]

theorem gather_run_eq (tasks : List RawResult) (order : List Nat) :
    ∀ (acc : Nat → Option RawResult) (i : Nat),
      (order.foldl (gather_write tasks) acc) i =
        if i ∈ order then tasks.get? i else acc i := by
  induction order with
  | nil => intro acc i; simp
  | cons j rest ih =>
    intro acc i
    rw [List.foldl_cons, ih]
    by_cases hm : i ∈ rest
    · simp [hm, List.mem_cons]
    · by_cases hij : i = j
      · subst hij
        simp [hm, gather_write, List.mem_cons]
      · simp [hm, hij, gather_write, List.mem_cons]

theorem range_map_get? {α : Type} (l : List α) :
    (List.range l.length).map (fun i => l.get? i) = l.map some := by
  apply List.ext_get?
  intro n
  by_cases h : n < l.length
  · rw [List.get?_map, List.get?_map, List.get?_range h]
    simp [List.getElem?_eq_getElem h]
  · have h1 : l.length ≤ n := Nat.le_of_not_lt h
    rw [List.get?_map, List.get?_map]
    rw [List.get?_eq_none.mpr (by simpa using h1), List.get?_eq_none.mpr h1]
    rfl

theorem gather_complete (tasks : List RawResult) (order : List Nat)
    (h : ∀ i, i < tasks.length → i ∈ order) :
    gather tasks order = tasks.map some := by
  unfold gather gather_run
  have heq : (List.range tasks.length).map (fun i => order.foldl (gather_write tasks) (fun _ => none) i) =
      (List.range tasks.length).map (fun i => tasks.get? i) := by
    apply List.map_congr_left
    intro i hi
    rw [gather_run_eq]
    simp [h i (List.mem_range.mp hi)]
  rw [heq, range_map_get?]

theorem pyIndex_pop_eq_erase (l : List String) :
    l.take (pyIndex l "ip") ++ l.drop (pyIndex l "ip" + 1) = l.erase "ip" := by
  induction l with
  | nil => rfl
  | cons y ys ih =>
    by_cases hy : y = "ip"
    · subst hy
      simp [pyIndex, List.erase_cons]
    · have hyb : (y == "ip") = false := by simp [hy]
      simp only [pyIndex, hy, if_false, List.take_succ_cons, List.drop_succ_cons,
        List.erase_cons, hyb, Bool.false_eq_true, List.cons_append]
      rw [ih]

theorem pyIndex_getD (l : List String) (h : "ip" ∈ l) :
    l.getD (pyIndex l "ip") "" = "ip" := by
  induction l with
  | nil => cases h
  | cons y ys ih =>
    by_cases hy : y = "ip"
    · subst hy
      simp [pyIndex]
    · have hmem : "ip" ∈ ys := by
        rcases List.mem_cons.mp h with h' | h'
        · exact absurd h'.symm hy
        · exact h'
      simp only [pyIndex, hy, if_false, List.getD_cons_succ]
      exact ih hmem

theorem parse_fields_state_eq (l : List String) :
    parse_fields_state l = "ip" :: l.erase "ip" := by
  unfold parse_fields_state
  by_cases h : "ip" ∈ l
  · have hc : l.contains "ip" = true := List.elem_eq_true_of_mem h
    simp only [hc, if_true]
    rw [pyIndex_getD l h, pyIndex_pop_eq_erase]
  · have hc : l.contains "ip" = false := by
      by_contra hne
      exact h (List.mem_of_elem_eq_true (Bool.not_eq_false _ ▸ hne))
    simp only [hc, Bool.false_eq_true, if_false]
    rw [List.erase_of_not_mem h]

theorem sortedInsert_perm (key : List String → String) (x : List String) :
    ∀ l, (sortedInsert key x l).Perm (x :: l) := by
  intro l
  induction l with
  | nil => exact List.Perm.refl _
  | cons y ys ih =>
    by_cases hlt : pyStrLt (key x) (key y) = true
    · simp [sortedInsert, hlt]
    · simp only [sortedInsert, hlt, Bool.false_eq_true, if_false]
      exact (ih.cons y).trans (List.Perm.swap x y ys)

theorem pySorted_perm (key : List String → String) (data : List (List String)) :
    (pySorted key data).Perm data := by
  suffices haux : ∀ (l acc : List (List String)),
      (l.foldl (fun acc x => sortedInsert key x acc) acc).Perm (acc ++ l) by
    simpa using haux data []
  intro l
  induction l with
  | nil => intro acc; simp
  | cons x xs ih =>
    intro acc
    rw [List.foldl_cons]
    refine (ih (sortedInsert key x acc)).trans ?_
    refine (List.Perm.append_right xs ((sortedInsert_perm key x acc))).trans ?_
    simpa using List.perm_middle.symm

/-- C1: the claim states that for every constructed result record the
`success` flag is a boolean that is true iff `http_code` is 200 and `error`
is null.  On the code, `BaseResult.__post_init__` assigns the one-element
tuple `(True,)` in BOTH branches (`self.success = True,`), so `success` is
the same truthy tuple even for a record built with an error and status 429,
and it is never a boolean at all; only `success_icon` distinguishes the
branches as the claim describes. -/
theorem c1_success_assigned_tuple_true_in_both_branches :
    (∀ hc e, baseResult_success hc e = PyVal.tuple [true]) ∧
    baseResult_success (some 429) (some "Rate limit exceeded") = PyVal.tuple [true] ∧
    (∀ b, PyVal.tuple [true] ≠ PyVal.bool b) ∧
    baseResult_success_icon (some 429) (some "Rate limit exceeded") = "✖" ∧
    baseResult_success_icon (some 200) none = "✔" := by
  refine ⟨?_, rfl, ?_, by decide, by decide⟩
  · intro hc e
    unfold baseResult_success
    split <;> rfl
  · intro b h
    cases h

/-- C2: the claim states that a provider outcome with HTTP status 200 and a
JSON-decodable body parses into a typed ProviderResult.  On the code, the
success path of `__parse_provider_result` computes `extracted`/`filtered`
and then falls off the end of the function without a return statement, so
it returns Python `None`; the batch still has one entry per outcome, but
every successful provider lookup contributes a null entry instead of a
record. -/
theorem c2_provider_success_path_returns_none (r : RawResult) (resp : HttpResponse)
    (body : String) (js : List (String × PyJson))
    (hr : r.outcome = Outcome.response resp) (hb : resp.text = some body)
    (hc : resp.status_code = some 200) (hj : resp.json = some js) :
    parse_provider_result r = none ∧
    ∀ rs : List RawResult, (parse_results_provider rs).length = rs.length := by
  constructor
  · simp [parse_provider_result, hr, hb, hc, hj]
  · intro rs
    simp [parse_results_provider]

/-- Witness for C2 at a concrete 200/JSON provider outcome. -/
theorem c2_provider_success_path_returns_none_witness :
    parse_provider_result
        (geo_ok_outcome "192.0.2.5" "x" [("name_ripe", PyJson.str "Example")]) = none ∧
    (parse_results_provider
        [geo_ok_outcome "192.0.2.5" "x" [("name_ripe", PyJson.str "Example")]]).length = 1 := by
  have h := c2_provider_success_path_returns_none
    (geo_ok_outcome "192.0.2.5" "x" [("name_ripe", PyJson.str "Example")])
    { text := some "x", status_code := some 200, json := some [("name_ripe", PyJson.str "Example")] }
    "x" [("name_ripe", PyJson.str "Example")] rfl rfl rfl rfl
  exact ⟨h.1, h.2 _⟩

/-- C3: the claim states that a ProviderResult built with a valid IPv4
address, route and prefix length gets `prefix` set to the CIDR network, and
that failures degrade to a null `prefix` without aborting construction.  On
the code, `ProviderResult.__post_init__` compares `type(self.ip)` — always
`str`, since `self.ip` is assigned an f-string — against `IPv4Address` and
`IPv6Address`, so neither branch assigns the local `prefix`, and the
following `self.prefix = prefix` raises UnboundLocalError: construction
aborts whenever route and length are both present, for any network
constructor behaviour.  When either is absent, `prefix` is set to `None`
as the claim says. -/
theorem c3_post_init_unbound_local (mkv4 mkv6 : String → String → Option String) :
    providerResult_post_init mkv4 mkv6 (some "192.0.2.0") (some "24") =
      Except.error "UnboundLocalError: local variable referenced before assignment" ∧
    (∀ route length_py, pyTruthyStr route = true → pyTruthyStr length_py = true →
      providerResult_post_init mkv4 mkv6 route length_py =
        Except.error "UnboundLocalError: local variable referenced before assignment") ∧
    (∀ route length_py, ¬(pyTruthyStr route = true ∧ pyTruthyStr length_py = true) →
      providerResult_post_init mkv4 mkv6 route length_py = Except.ok none) := by
  refine ⟨rfl, ?_, ?_⟩
  · intro route length_py h1 h2
    simp [providerResult_post_init, h1, h2, providerResult_selfIp_type]
  · intro route length_py h
    simp [providerResult_post_init, h]

/-- Witness for C3: the constructors are irrelevant; with route `192.0.2.0`
and mask `24` construction aborts, with both absent `prefix` is `None`. -/
theorem c3_post_init_unbound_local_witness :
    providerResult_post_init (fun _ _ => none) (fun _ _ => none)
        (some "192.0.2.0") (some "24") =
      Except.error "UnboundLocalError: local variable referenced before assignment" ∧
    providerResult_post_init (fun _ _ => none) (fun _ _ => none) none none =
      Except.ok none :=
  ⟨(c3_post_init_unbound_local _ _).2.1 (some "192.0.2.0") (some "24")
      (by decide) (by decide),
   (c3_post_init_unbound_local _ _).2.2 none none (by decide)⟩

/-- C4: in strict mode, an input that fails to parse makes normalization
abort the whole batch with a validation failure naming an offending input
string, before any network activity (the lookup outcome is an error and is
independent of the transport); in lenient mode the offending entry is
skipped and the remaining inputs are still normalized. -/
theorem c4_strict_aborts_lenient_skips (parse : String → Option String)
    (inputs : List IpInput) (s : String)
    (hmem : IpInput.str s ∈ inputs) (hbad : parse s = none) :
    (∃ s0, parse s0 = none ∧ IpInput.str s0 ∈ inputs ∧
      normalize_ip parse true inputs =
        Except.error ("Could not validate IP address \"" ++ s0 ++ "\"")) ∧
    (∀ transport transport2 : String → TransportResult,
      lookup_geo parse true transport inputs = lookup_geo parse true transport2 inputs) ∧
    (∀ transport : String → TransportResult,
      ∃ m, lookup_geo parse true transport inputs = Except.error m) ∧
    (∀ pre post : List IpInput,
      normalize_ip parse false (pre ++ IpInput.str s :: post) =
        normalize_ip parse false (pre ++ post)) := by
  obtain ⟨s0, h1, h2, h3⟩ := normalize_go_strict_err parse inputs [] ⟨s, hmem, hbad⟩
  have h3' : normalize_ip parse true inputs =
      Except.error ("Could not validate IP address \"" ++ s0 ++ "\"") := h3
  refine ⟨⟨s0, h1, h2, h3'⟩, ?_, ?_, ?_⟩
  · intro t t2
    simp [lookup_geo, h3']
  · intro t
    exact ⟨"Could not validate IP address \"" ++ s0 ++ "\"", by simp [lookup_geo, h3']⟩
  · intro pre post
    exact normalize_go_lenient_skip parse s hbad pre post []

/-- Witness for C4 on a concrete batch: `notanip` is rejected by the
address parser, aborts a strict batch naming the offending input before any
transport is consulted, and is skipped in a lenient batch. -/
theorem c4_strict_aborts_lenient_skips_witness :
    normalize_ip ip_address_v4 true [IpInput.str "192.0.2.1", IpInput.str "notanip"] =
      Except.error ("Could not validate IP address \"" ++ "notanip" ++ "\"") ∧
    lookup_geo ip_address_v4 true (fun _ => TransportResult.otherExn "net down")
        [IpInput.str "192.0.2.1", IpInput.str "notanip"] =
      lookup_geo ip_address_v4 true (fun _ => TransportResult.requestError "refused")
        [IpInput.str "192.0.2.1", IpInput.str "notanip"] ∧
    normalize_ip ip_address_v4 false [IpInput.str "192.0.2.1", IpInput.str "notanip"] =
      normalize_ip ip_address_v4 false [IpInput.str "192.0.2.1"] := by
  have h := c4_strict_aborts_lenient_skips ip_address_v4
    [IpInput.str "192.0.2.1", IpInput.str "notanip"] "notanip"
    (by decide) (by decide)
  refine ⟨rfl, h.2.1 _ _, ?_⟩
  simpa using h.2.2.2 [IpInput.str "192.0.2.1"] []

/-- A concrete rate-limited raw outcome: status 429, body retained. -/
def outcome_429 : RawResult :=
  { ip := "192.0.2.1",
    outcome := Outcome.response
      { text := some "limited", status_code := some 429, json := none } }

/-- A concrete raw outcome with an unexpected status code 500. -/
def outcome_500 : RawResult :=
  { ip := "192.0.2.2",
    outcome := Outcome.response
      { text := some "oops", status_code := some 500, json := none } }

/-- C5 counterexample: the claim fixes the error string as
"rate limit exceeded"; the code constructs the record with
`error = 'Rate limit exceeded'` (capitalized), so the claim's equality
fails on a concrete 429 outcome. -/
theorem c5_error_string_case_counterexample :
    (parse_geo_result outcome_429).error = some "Rate limit exceeded" ∧
    (parse_geo_result outcome_429).error ≠ some "rate limit exceeded" :=
  ⟨rfl, by decide⟩

/-- C5 (amended): a 429 response yields, for both kinds, a record with
error "Rate limit exceeded", http_code 429 and the raw body retained; a
non-200 non-429 status yields "Unexpected HTTP response code" with that
status; and parsing a batch is elementwise, so any other outcome's record
in the same batch is unaffected. -/
theorem c5_rate_limit_and_unexpected_code (r : RawResult) (resp : HttpResponse)
    (body : String) (code : Int)
    (hr : r.outcome = Outcome.response resp) (hb : resp.text = some body)
    (hc : resp.status_code = some code) :
    (code = 429 →
      parse_geo_result r =
        { ip := r.ip, error := some "Rate limit exceeded",
          api_response_raw := some body, http_code := some 429 } ∧
      parse_provider_result r =
        some { ip := r.ip, error := some "Rate limit exceeded",
               api_response_raw := some body, http_code := some 429 }) ∧
    (code ≠ 200 → code ≠ 429 →
      parse_geo_result r =
        { ip := r.ip, error := some "Unexpected HTTP response code",
          api_response_raw := some body, http_code := some code } ∧
      parse_provider_result r =
        some { ip := r.ip, error := some "Unexpected HTTP response code",
               api_response_raw := some body, http_code := some code }) ∧
    (∀ o2, parse_results_geo [r, o2] = [parse_geo_result r, parse_geo_result o2] ∧
      parse_results_provider [r, o2] =
        [parse_provider_result r, parse_provider_result o2]) := by
  refine ⟨?_, ?_, ?_⟩
  · rintro rfl
    constructor <;> simp [parse_geo_result, parse_provider_result, hr, hb, hc]
  · intro h200 h429
    constructor <;>
      simp [parse_geo_result, parse_provider_result, hr, hb, hc, h200, h429]
  · intro o2
    exact ⟨rfl, rfl⟩

/-- Witness for C5 at a concrete 429 outcome and a concrete 500 outcome. -/
theorem c5_rate_limit_and_unexpected_code_witness :
    (parse_geo_result outcome_429 =
        { ip := "192.0.2.1", error := some "Rate limit exceeded",
          api_response_raw := some "limited", http_code := some 429 } ∧
      parse_provider_result outcome_429 =
        some { ip := "192.0.2.1", error := some "Rate limit exceeded",
               api_response_raw := some "limited", http_code := some 429 }) ∧
    (parse_geo_result outcome_500 =
        { ip := "192.0.2.2", error := some "Unexpected HTTP response code",
          api_response_raw := some "oops", http_code := some 500 } ∧
      parse_provider_result outcome_500 =
        some { ip := "192.0.2.2", error := some "Unexpected HTTP response code",
               api_response_raw := some "oops", http_code := some 500 }) :=
  ⟨(c5_rate_limit_and_unexpected_code outcome_429 _ "limited" 429 rfl rfl rfl).1 rfl,
   (c5_rate_limit_and_unexpected_code outcome_500 _ "oops" 500 rfl rfl rfl).2.1
     (by decide) (by decide)⟩

/-- C6 counterexample: the claim says `["192.0.2.0", "192.0.2.0"]` in either
representation normalizes to a list of length 1.  Already-typed address
inputs bypass the duplicate check in `__normalize_ip` (they are appended
with a bare `ips.append(address); continue`), so the typed representation
normalizes to a list of length 2. -/
theorem c6_typed_duplicates_not_removed_counterexample :
    normalize_ip ip_address_v4 false
        [IpInput.typed "192.0.2.0", IpInput.typed "192.0.2.0"] =
      Except.ok ["192.0.2.0", "192.0.2.0"] ∧
    normalize_ip ip_address_v4 false
        [IpInput.typed "192.0.2.0", IpInput.typed "192.0.2.0"] ≠
      Except.ok ["192.0.2.0"] ∧
    (["192.0.2.0", "192.0.2.0"] : List String).length = 2 := by
  refine ⟨rfl, ?_, rfl⟩
  intro h
  rw [show normalize_ip ip_address_v4 false
      [IpInput.typed "192.0.2.0", IpInput.typed "192.0.2.0"] =
      Except.ok ["192.0.2.0", "192.0.2.0"] from rfl] at h
  injection h with h'
  cases h'

/-- C6 (amended): duplicates among inputs supplied as strings are removed
after canonicalization, keeping first-occurrence order (the result is the
first-occurrence deduplication of the successfully parsed inputs, and has
no duplicates); inputs that are already typed address values bypass the
duplicate check and are appended unconditionally, so duplicate typed
entries are all retained.  The claim's scenario holds in the string
representation. -/
theorem c6_dedup_strings_only (parse : String → Option String) :
    (∀ l : List String,
      normalize_ip parse false (l.map IpInput.str) =
        Except.ok (pyDedup (l.filterMap parse))) ∧
    (∀ l : List String, (pyDedup l).Nodup) ∧
    (∀ (ts : List String) (strict : Bool),
      normalize_ip parse strict (ts.map IpInput.typed) = Except.ok ts) ∧
    normalize_ip ip_address_v4 false
        [IpInput.str "192.0.2.0", IpInput.str "192.0.2.0"] =
      Except.ok ["192.0.2.0"] := by
  refine ⟨?_, ?_, ?_, rfl⟩
  · intro l
    exact normalize_go_str_eq parse l []
  · intro l
    exact dedupGo_nodup l [] List.nodup_nil
  · intro ts strict
    simpa using normalize_go_typed_eq parse strict ts []

/-- C7: for every completion order that finishes all tasks, the gathered
batch result equals one outcome per input address in input order — same
length, i-th outcome built from the i-th address — and per-address
transport failures are recorded in that outcome's error field by the total
`__request` wrapper, never escaping as an exception. -/
theorem c7_batch_order_and_error_isolation (transport : String → TransportResult)
    (ips : List String) (order : List Nat)
    (hcov : ∀ i, i < ips.length → i ∈ order) :
    run_batch transport ips order = ips.map (fun ip => some (request transport ip)) ∧
    (run_batch transport ips order).length = ips.length ∧
    (∀ ip, (request transport ip).ip = ip) ∧
    (∀ ip m, transport ip = TransportResult.requestError m →
      (request transport ip).outcome = Outcome.error ("RequestError: " ++ m)) ∧
    (∀ ip m, transport ip = TransportResult.transportError m →
      (request transport ip).outcome = Outcome.error ("TransportError: " ++ m)) ∧
    (∀ ip m, transport ip = TransportResult.otherExn m →
      (request transport ip).outcome = Outcome.error ("Exception: " ++ m)) := by
  have hmain : run_batch transport ips order =
      ips.map (fun ip => some (request transport ip)) := by
    unfold run_batch generate_tasks
    rw [gather_complete]
    · rw [List.map_map]
      rfl
    · intro i hi
      exact hcov i (by simpa using hi)
  refine ⟨hmain, ?_, ?_, ?_, ?_, ?_⟩
  · rw [hmain]
    simp
  · intro ip
    cases h : transport ip <;> simp [request, h]
  · intro ip m h
    simp [request, h]
  · intro ip m h
    simp [request, h]
  · intro ip m h
    simp [request, h]

/-- Witness for C7: two addresses completing in reverse order; the first
address's transport raises, the second completes; the batch still returns
both outcomes in input order. -/
theorem c7_batch_order_and_error_isolation_witness :
    run_batch
        (fun ip => if ip = "192.0.2.1" then TransportResult.requestError "connection refused"
          else TransportResult.response { text := some "x", status_code := some 200, json := some [] })
        ["192.0.2.1", "192.0.2.2"] [1, 0] =
      (["192.0.2.1", "192.0.2.2"].map (fun ip => some (request
        (fun ip => if ip = "192.0.2.1" then TransportResult.requestError "connection refused"
          else TransportResult.response { text := some "x", status_code := some 200, json := some [] }) ip))) ∧
    (run_batch
        (fun ip => if ip = "192.0.2.1" then TransportResult.requestError "connection refused"
          else TransportResult.response { text := some "x", status_code := some 200, json := some [] })
        ["192.0.2.1", "192.0.2.2"] [1, 0]).length = 2 ∧
    (request
        (fun ip => if ip = "192.0.2.1" then TransportResult.requestError "connection refused"
          else TransportResult.response { text := some "x", status_code := some 200, json := some [] })
        "192.0.2.1").outcome = Outcome.error ("RequestError: " ++ "connection refused") := by
  have h := c7_batch_order_and_error_isolation
    (fun ip => if ip = "192.0.2.1" then TransportResult.requestError "connection refused"
      else TransportResult.response { text := some "x", status_code := some 200, json := some [] })
    ["192.0.2.1", "192.0.2.2"] [1, 0]
    (by decide)
  exact ⟨h.1, h.2.1, h.2.2.2.1 "192.0.2.1" "connection refused" rfl⟩

/-- C8: parsing a 200-status geo response suppresses allow-listed fields
whose JSON value is one of the sentinel strings (they come out null, the
record carries no error), and the parsed record depends only on the
allow-listed keys, so any extra upstream field is ignored. -/
theorem c8_sentinel_suppression (ip body : String) (js : List (String × PyJson))
    (s1 s2 : String)
    (h1 : jsonGet js "country" = some (PyJson.str s1))
    (hs1 : geo_empty.contains s1 = true)
    (h2 : jsonGet js "city" = some (PyJson.str s2))
    (hs2 : geo_empty.contains s2 = true) :
    (parse_geo_result (geo_ok_outcome ip body js)).country = none ∧
    (parse_geo_result (geo_ok_outcome ip body js)).city = none ∧
    (parse_geo_result (geo_ok_outcome ip body js)).error = none ∧
    (∀ js', (∀ k ∈ geo_field_filter, jsonGet js' k = jsonGet js k) →
      parse_geo_result (geo_ok_outcome ip body js') =
        parse_geo_result (geo_ok_outcome ip body js)) := by
  refine ⟨?_, ?_, rfl, ?_⟩
  · show geo_kwarg js "country" = none
    rw [geo_kwarg_eq js "country" (by decide), h1]
    simp [geo_sentinel, List.mem_of_elem_eq_true hs1]
  · show geo_kwarg js "city" = none
    rw [geo_kwarg_eq js "city" (by decide), h2]
    simp [geo_sentinel, List.mem_of_elem_eq_true hs2]
  · intro js' hjs
    have hk : ∀ k, geo_kwarg js' k = geo_kwarg js k := fun k =>
      kwargLookup_congr geo_field_filter geo_sentinel (jsonGet js') (jsonGet js) k hjs
    simp only [parse_geo_result, geo_ok_outcome, hk]

/-- Witness for C8: the body `{"country": "-", "city": "Неизвестно"}` gives
a record with both fields null, and adding a field outside the allow-list
does not change the parsed record. -/
theorem c8_sentinel_suppression_witness :
    (parse_geo_result (geo_ok_outcome "192.0.2.0" "body"
      [("country", PyJson.str "-"), ("city", PyJson.str "Неизвестно")])).country = none ∧
    (parse_geo_result (geo_ok_outcome "192.0.2.0" "body"
      [("country", PyJson.str "-"), ("city", PyJson.str "Неизвестно")])).city = none ∧
    (parse_geo_result (geo_ok_outcome "192.0.2.0" "body"
      [("country", PyJson.str "-"), ("city", PyJson.str "Неизвестно")])).error = none ∧
    parse_geo_result (geo_ok_outcome "192.0.2.0" "body"
      [("country", PyJson.str "-"), ("city", PyJson.str "Неизвестно"),
       ("unknown_extra", PyJson.str "kept?")]) =
      parse_geo_result (geo_ok_outcome "192.0.2.0" "body"
        [("country", PyJson.str "-"), ("city", PyJson.str "Неизвестно")]) := by
  have h := c8_sentinel_suppression "192.0.2.0" "body"
    [("country", PyJson.str "-"), ("city", PyJson.str "Неизвестно")]
    "-" "Неизвестно" rfl (by decide) rfl (by decide)
  exact ⟨h.1, h.2.1, h.2.2.1, h.2.2.2 _ (by decide)⟩

/-- The `_table_headers` of `ProviderResults` in
`twoip/dataclasses/provider.py`. -/
def headers5 : List String := ["IP Address", "Provider", "ASN", "Prefix", "Website"]

/-- Two concrete table rows whose column orders differ. -/
def rows2 : List (List String) :=
  [["b", "1", "1", "1", "1"], ["a", "0", "0", "0", "0"]]

/-- C9 counterexample: the claim says a positional index within the header
range — including the last column's index — sorts the rows by that column.
With five headers, index 4 (the last column) is incremented to 5, slips
past the `sort > len` bounds check and raises IndexError when indexing the
header list: no table is produced. -/
theorem c9_last_column_index_raises_counterexample :
    generate_table headers5 rows2 (Sum.inr 4) =
      Except.error "IndexError: list index out of range" ∧
    (generate_table headers5 rows2 (Sum.inr 4)).isOk = false :=
  ⟨rfl, rfl⟩

/-- C9 (amended): a header name that exists sorts the rows by that column
(the result is a permutation of the data, stably sorted on that column's
key); an unknown name raises ValueError.  An integer sort key `i` is first
incremented: `i` with `-1 ≤ i ≤ n-2` sorts by column `i+1`, `i = n-1` (the
last column's index) passes the bounds check but raises IndexError when
indexing the headers, and any other integer raises ValueError. -/
theorem c9_sort_key_semantics (headers : List String) (data : List (List String)) :
    (∀ s, headers.contains s = true →
      generate_table headers data (Sum.inl s) =
        Except.ok (pySorted (rowKey (pyIndex headers s)) data) ∧
      (pySorted (rowKey (pyIndex headers s)) data).Perm data) ∧
    (∀ s, headers.contains s = false →
      generate_table headers data (Sum.inl s) =
        Except.error ("ValueError: The sort index " ++ s ++
          " is not a valid sort key for the table")) ∧
    (∀ i : Int, 0 ≤ i + 1 → i + 1 < headers.length →
      ∃ h, headers[(i + 1).toNat]? = some h ∧
        generate_table headers data (Sum.inr i) =
          Except.ok (pySorted (rowKey (pyIndex headers h)) data)) ∧
    (∀ i : Int, i + 1 = headers.length →
      generate_table headers data (Sum.inr i) =
        Except.error "IndexError: list index out of range") ∧
    (∀ i : Int, i + 1 < 0 ∨ i + 1 > headers.length →
      generate_table headers data (Sum.inr i) =
        Except.error "ValueError: Sort column index not in table headers") := by
  refine ⟨?_, ?_, ?_, ?_, ?_⟩
  · intro s hs
    exact ⟨by simp [generate_table, List.mem_of_elem_eq_true hs], pySorted_perm _ _⟩
  · intro s hs
    have hs' : s ∉ headers := by simpa using hs
    simp [generate_table, hs']
  · intro i h0 hlt
    have hnat : (i + 1).toNat < headers.length := by omega
    have hh : headers[(i + 1).toNat]? = some headers[(i + 1).toNat] :=
      List.getElem?_eq_getElem hnat
    have hcond : ¬(i + 1 < 0 ∨ i + 1 > (headers.length : Int)) := by omega
    exact ⟨_, hh, by simp [generate_table, hcond, hh]⟩
  · intro i heq
    have hcond : ¬(i + 1 < 0 ∨ i + 1 > (headers.length : Int)) := by omega
    have hnone : headers[(i + 1).toNat]? = none := by
      rw [List.getElem?_eq_none_iff]
      omega
    simp [generate_table, hcond, hnone]
  · intro i hcond
    simp [generate_table, hcond]

/-- Witness for C9 on the provider table headers: a valid header name
sorts; the last column's index 4 raises IndexError; index 7 raises
ValueError. -/
theorem c9_sort_key_semantics_witness :
    (generate_table headers5 rows2 (Sum.inl "IP Address") =
      Except.ok (pySorted (rowKey (pyIndex headers5 "IP Address")) rows2) ∧
      (pySorted (rowKey (pyIndex headers5 "IP Address")) rows2).Perm rows2) ∧
    generate_table headers5 rows2 (Sum.inr 4) =
      Except.error "IndexError: list index out of range" ∧
    generate_table headers5 rows2 (Sum.inr 7) =
      Except.error "ValueError: Sort column index not in table headers" :=
  ⟨(c9_sort_key_semantics headers5 rows2).1 "IP Address" (by decide),
   (c9_sort_key_semantics headers5 rows2).2.2.2.1 4 (by decide),
   (c9_sort_key_semantics headers5 rows2).2.2.2.2 7 (by decide)⟩

/-- C10: calling `to_table`/`to_csv` with an explicit non-empty fields list
mutates the caller's list in place: afterwards it is `ip` followed by the
original entries with the first `ip` occurrence removed, so the caller's
own list begins with `ip`; if it did not already start with `ip`, the call
has visibly changed it — the methods are not side-effect-free on their
argument. -/
theorem c10_to_table_mutates_fields_argument (fields : List String)
    (h : fields ≠ []) :
    to_table_caller_fields_after fields = "ip" :: fields.erase "ip" ∧
    (to_table_caller_fields_after fields).head? = some "ip" ∧
    (fields.head? ≠ some "ip" → to_table_caller_fields_after fields ≠ fields) := by
  have hne : fields.isEmpty = false := by
    cases fields with
    | nil => exact absurd rfl h
    | cons a l => rfl
  have heq : to_table_caller_fields_after fields = "ip" :: fields.erase "ip" := by
    unfold to_table_caller_fields_after
    rw [hne]
    simp only [Bool.false_eq_true, if_false]
    exact parse_fields_state_eq fields
  refine ⟨heq, by rw [heq]; rfl, ?_⟩
  intro hhead hcontra
  rw [heq] at hcontra
  rw [← hcontra] at hhead
  exact hhead rfl

/-- Witness for C10: the caller's list `["country", "ip"]` becomes
`["ip", "country"]` after the call. -/
theorem c10_to_table_mutates_fields_argument_witness :
    to_table_caller_fields_after ["country", "ip"] =
      "ip" :: (["country", "ip"].erase "ip") ∧
    (to_table_caller_fields_after ["country", "ip"]).head? = some "ip" ∧
    to_table_caller_fields_after ["country", "ip"] ≠ ["country", "ip"] := by
  have h := c10_to_table_mutates_fields_argument ["country", "ip"] (by decide)
  exact ⟨h.1, h.2.1, h.2.2 (by decide)⟩
